import Mathlib

/-!
Verification of the two Pluribus Networks Ansible modules
`pn_trunk.py` and `pn_vlag.py`.

Each module validates its parameters (via the AnsibleModule framework),
builds one CLI command string for `/usr/bin/cli`, tokenizes it with
`shlex.split`, runs it as a subprocess, and reports success or failure
from the captured stderr text.

The embedding below translates the command-building code of `main()` in
both modules, the stderr-based result reporting, and (modelled from the
spec, since the AnsibleModule framework source is not part of this
repository) the required-field validation that runs before any
subprocess is launched.
-/

/-! ## Small String facts used throughout -/

lemma strData_append (s t : String) : (s ++ t).data = s.data ++ t.data := rfl

lemma strMk_data (s : String) : String.mk s.data = s := rfl

lemma strAppend_assoc (a b c : String) : a ++ b ++ c = a ++ (b ++ c) :=
  congrArg String.mk (List.append_assoc a.data b.data c.data)

lemma strAppend_empty (s : String) : s ++ "" = s :=
  strMk_data s ▸ congrArg String.mk (List.append_nil s.data)

lemma strData_eq (s t : String) (h : s.data = t.data) : s = t := by
  rw [← strMk_data s, h, strMk_data]

lemma strData_ne_nil (s : String) (h : s ≠ "") : s.data ≠ [] := by
  intro hd
  exact h (strData_eq s "" hd)

/-! ## Python-style truthiness

The modules test optional parameters with `if x:`.  An absent parameter
is `None` (falsy); a present string is falsy exactly when empty; a
present integer is falsy exactly when zero. -/

/-- Python truthiness of an optional string parameter. -/
def pyTruthyStr : Option String → Bool
  | none => false
  | some s => s ≠ ""

/-- Python truthiness of an optional integer parameter. -/
def pyTruthyInt : Option Int → Bool
  | none => false
  | some n => n ≠ 0

/-! ## Rendering segments

Each `if <param>: cli += ...` statement of the sources appends one text
segment to the command string.  The segment functions below give the
text appended by one such statement (empty when the parameter is falsy
and the statement is skipped). -/

/-- Segment for `if v: cli += ' <tok> ' + v` (string-valued field). -/
def strSeg (tok : String) : Option String → String
  | none => ""
  | some s => if s = "" then "" else " " ++ tok ++ " " ++ s

/-- Segment for a tri-state boolean field:
`if v is True: cli += ' <tTok> '` followed by
`if v is False: cli += ' <fTok> '`. -/
def triSeg (tTok fTok : String) : Option Bool → String
  | some true => " " ++ tTok ++ " "
  | some false => " " ++ fTok ++ " "
  | none => ""

/-- Trunk switch clause, `pn_trunk.py` lines 272-273:
`if cliswitch: cli += ' switch-local ' if cliswitch == 'local' else ' switch ' + cliswitch`. -/
def switchClauseTrunk : Option String → String
  | none => ""
  | some s => if s = "" then "" else if s = "local" then " switch-local " else " switch " ++ s

/-- VLAG switch clause, `pn_vlag.py` lines 205-206:
`if cliswitch: cli += ' switch ' + cliswitch` (no `switch-local` sentinel). -/
def switchClauseVlag : Option String → String
  | none => ""
  | some s => if s = "" then "" else " switch " ++ s

/-- VLAG peer-switch segment, `pn_vlag.py` lines 219-220:
`if peer_switch: cli += ' peer-switch' + peer_switch` — note the missing
space between the field token and the value. -/
def peerSwitchSeg : Option String → String
  | none => ""
  | some s => if s = "" then "" else " peer-switch" ++ s

/-- VLAG failover segment, `pn_vlag.py` lines 222-223:
`if failover_action: cli += ' failover-' + failover_action + '-L2 '`. -/
def failoverSeg : Option String → String
  | none => ""
  | some s => if s = "" then "" else " failover-" ++ s ++ "-L2 "

/-! ## Trunk family: validated parameters and command building -/

/-- A Python runtime error raised while building or tokenizing the
command: `typeError` from the str + int concatenation in the trunk
builder, `valueError` from `shlex.split` on an unbalanced quote or a
trailing escape character. -/
inductive PyError
  | typeError
  | valueError
deriving DecidableEq

/-- The validated parameters of `pn_trunk.py` as read from
`module.params` (lines 236-262).  `pn_cliusername`, `pn_clipassword`,
`pn_command` and `pn_name` are declared `required=True`, `pn_quiet`
defaults to `True`; every other parameter may be absent (`None`). -/
structure TrunkParams where
  pn_cliusername : String
  pn_clipassword : String
  pn_cliswitch : Option String
  pn_command : String
  pn_name : String
  pn_ports : Option String
  pn_speed : Option String
  pn_egress_rate_limit : Option String
  pn_jumbo : Option Bool
  pn_lacp_mode : Option String
  pn_lacp_priority : Option Int
  pn_lacp_timeout : Option String
  pn_lacp_fallback : Option String
  pn_lacp_fallback_timeout : Option String
  pn_edge_switch : Option Bool
  pn_pause : Option Bool
  pn_description : Option String
  pn_loopback : Option Bool
  pn_mirror_receive : Option Bool
  pn_unknown_ucast_level : Option String
  pn_unknown_mcast_level : Option String
  pn_broadcast_level : Option String
  pn_port_macaddr : Option String
  pn_loopvlans : Option String
  pn_routing : Option Bool
  pn_host : Option Bool
  pn_quiet : Bool

/-- The command-string construction of `pn_trunk.py` `main()`,
lines 264-352.  `pn_lacp_priority` is declared `type='int'`, so the
statement `cli += ' lacp-priority ' + lacp_priority` (lines 294-295)
concatenates a `str` with an `int` and raises `TypeError` whenever
`lacp_priority` is truthy; building then produces no command at all. -/
def buildTrunkCli (p : TrunkParams) : Except PyError String :=
  let cli := "/usr/bin/cli"
  let cli := if p.pn_quiet then cli ++ " --quiet " else cli
  let cli := cli ++ " --user " ++ p.pn_cliusername ++ ":" ++ p.pn_clipassword ++ " "
  let cli := cli ++ switchClauseTrunk p.pn_cliswitch
  let cli := cli ++ " " ++ p.pn_command ++ " name " ++ p.pn_name ++ " "
  let cli := cli ++ strSeg "ports" p.pn_ports
  let cli := cli ++ strSeg "speed" p.pn_speed
  let cli := cli ++ strSeg "egress-rate-limit" p.pn_egress_rate_limit
  let cli := cli ++ triSeg "jumbo" "no-jumbo" p.pn_jumbo
  let cli := cli ++ strSeg "lacp-mode" p.pn_lacp_mode
  if pyTruthyInt p.pn_lacp_priority then Except.error PyError.typeError
  else
  let cli := cli ++ strSeg "lacp-timeout" p.pn_lacp_timeout
  let cli := cli ++ strSeg "lacp-fallback" p.pn_lacp_fallback
  let cli := cli ++ strSeg "lacp-fallback-timeout" p.pn_lacp_fallback_timeout
  let cli := cli ++ triSeg "edge-switch" "no-edge-switch" p.pn_edge_switch
  let cli := cli ++ triSeg "pause" "no-pause" p.pn_pause
  let cli := cli ++ strSeg "description" p.pn_description
  let cli := cli ++ triSeg "loopback" "no-loopback" p.pn_loopback
  let cli := cli ++ triSeg "mirror-receive-only" "no-mirror-receive-only" p.pn_mirror_receive
  let cli := cli ++ strSeg "unknown-ucast-level" p.pn_unknown_ucast_level
  let cli := cli ++ strSeg "unknown-mcast-level" p.pn_unknown_mcast_level
  let cli := cli ++ strSeg "broadcast-level" p.pn_broadcast_level
  let cli := cli ++ strSeg "port-mac-address" p.pn_port_macaddr
  let cli := cli ++ strSeg "loopvlans" p.pn_loopvlans
  let cli := cli ++ triSeg "routing" "no-routing" p.pn_routing
  let cli := cli ++ triSeg "host-enable" "host-disable" p.pn_host
  Except.ok cli

/-! ## VLAG family: validated parameters and command building -/

/-- The validated parameters of `pn_vlag.py` as read from
`module.params` (lines 182-196). -/
structure VlagParams where
  pn_cliusername : String
  pn_clipassword : String
  pn_cliswitch : Option String
  pn_command : String
  pn_name : String
  pn_port : Option String
  pn_peer_port : Option String
  pn_mode : Option String
  pn_peer_switch : Option String
  pn_failover_action : Option String
  pn_lacp_mode : Option String
  pn_lacp_timeout : Option String
  pn_lacp_fallback : Option String
  pn_lacp_fallback_timeout : Option String
  pn_quiet : Bool

/-- The command-string construction of `pn_vlag.py` `main()`,
lines 198-235.  All optional fields are strings, so no type error can
occur and building is total. -/
def buildVlagCli (p : VlagParams) : String :=
  let cli :=
    if p.pn_quiet then
      "/usr/bin/cli --quiet --user " ++ p.pn_cliusername ++ ":" ++ p.pn_clipassword ++ " "
    else
      "/usr/bin/cli --user " ++ p.pn_cliusername ++ ":" ++ p.pn_clipassword ++ " "
  let cli := cli ++ switchClauseVlag p.pn_cliswitch
  let cli := cli ++ " " ++ p.pn_command ++ " name " ++ p.pn_name
  let cli := cli ++ strSeg "port" p.pn_port
  let cli := cli ++ strSeg "peer-port" p.pn_peer_port
  let cli := cli ++ strSeg "mode" p.pn_mode
  let cli := cli ++ peerSwitchSeg p.pn_peer_switch
  let cli := cli ++ failoverSeg p.pn_failover_action
  let cli := cli ++ strSeg "lacp-mode" p.pn_lacp_mode
  let cli := cli ++ strSeg "lacp-timeout" p.pn_lacp_timeout
  let cli := cli ++ strSeg "lacp-fallback" p.pn_lacp_fallback
  cli ++ strSeg "lacp-fallback-timeout" p.pn_lacp_fallback_timeout

/-! ## Result reporting -/

/-- Python `s.rstrip("\r\n")`: drop trailing carriage returns and
newlines. -/
def rstripCRLF (s : String) : String :=
  String.mk ((s.data.reverse.dropWhile (fun c => c = '\r' ∨ c = '\n')).reverse)

/-- The keyword arguments passed to `module.exit_json`.  A key that a
call does not pass is `none`. -/
structure ExitJson where
  command : String
  stdout : Option String
  stderr : Option String
  rc : Option Nat
  changed : Bool
deriving DecidableEq

/-- Result reporting of `pn_trunk.py`, lines 364-376: failure (with the
trimmed stderr and `changed=False`) exactly when the captured stderr
text `err` is non-empty, success (with the trimmed stdout and
`changed=True`) otherwise.  The subprocess exit code is never
consulted. -/
def trunkReport (cli out err : String) : ExitJson :=
  if err = "" then
    { command := cli, stdout := some (rstripCRLF out), stderr := none, rc := none,
      changed := true }
  else
    { command := cli, stdout := none, stderr := some (rstripCRLF err), rc := none,
      changed := false }

/-- Result reporting of `pn_vlag.py`, lines 247-261: like the trunk
reporter but additionally passing `rc=1` on failure and `rc=0` on
success. -/
def vlagReport (cli out err : String) : ExitJson :=
  if err = "" then
    { command := cli, stdout := some (rstripCRLF out), stderr := none, rc := some 0,
      changed := true }
  else
    { command := cli, stdout := none, stderr := some (rstripCRLF err), rc := some 1,
      changed := false }

/-! ## Tokenization

`shlex.split` (POSIX mode, whitespace_split) is applied to the
assembled command string before the subprocess call.  It splits on the
whitespace set `' \t\r\n'`, respects single quotes, double quotes and
the backslash escape, and raises `ValueError` on an unterminated quote
or a trailing escape.  `shlexSplit` below embeds that tokenizer as a
state machine; `words` is plain whitespace splitting, and
`shlexSplit_plain` proves the two agree (with no error) on strings free
of quote and escape characters — which is where the claims use it. -/

/-- The `shlex` whitespace set `' \t\r\n'`. -/
def isShlexWs (c : Char) : Bool :=
  c = ' ' ∨ c = '\t' ∨ c = '\r' ∨ c = '\n'

/-- A character with no special meaning to `shlex`: not a single quote
(code 39), double quote (code 34) or backslash (code 92). -/
def shlexPlain (c : Char) : Bool :=
  c.toNat ≠ 39 ∧ c.toNat ≠ 34 ∧ c.toNat ≠ 92

/-- A character that keeps a field value inside one `shlex` token: not
whitespace and not a quote or escape character. -/
def plainTokenChar (c : Char) : Bool :=
  shlexPlain c && !(isShlexWs c)

/-- Split a character list into maximal whitespace-free words; `acc`
holds the (reversed) characters of the word currently being read. -/
def wordsAux : List Char → List Char → List String
  | [], acc => if acc = [] then [] else [String.mk acc.reverse]
  | c :: cs, acc =>
    if isShlexWs c then
      (if acc = [] then wordsAux cs [] else String.mk acc.reverse :: wordsAux cs [])
    else wordsAux cs (c :: acc)

/-- Whitespace splitting on the `shlex` whitespace set, dropping empty
pieces. -/
def words (s : String) : List String := wordsAux s.data []

/-- The states of the `shlex` tokenizer: between tokens, inside an
unquoted word, inside single quotes, inside double quotes, after an
escape character outside quotes, after an escape character inside
double quotes. -/
inductive SxState
  | out
  | word
  | squote
  | dquote
  | esc
  | escDq
deriving DecidableEq

/-- The `shlex.split` state machine (POSIX mode, whitespace_split), one
transition per character.  `acc` holds the (reversed) characters of the
token being read and `quoted` records whether that token contained a
quoted section (a quoted token is emitted even when empty, as for
`''`).  Quote and escape characters are compared by code point: 39 is
the single quote, 34 the double quote, 92 the backslash.  Reaching the
end of input inside a quote or right after an escape character is the
`ValueError` raised by `shlex.split` ("No closing quotation" / "No
escaped character"). -/
def shlexAux : List Char → SxState → List Char → Bool → Except PyError (List String)
  | [], st, acc, quoted =>
    match st with
    | SxState.out => Except.ok []
    | SxState.word =>
      Except.ok (if acc = [] ∧ quoted = false then [] else [String.mk acc.reverse])
    | _ => Except.error PyError.valueError
  | c :: cs, st, acc, quoted =>
    match st with
    | SxState.out =>
      if isShlexWs c then shlexAux cs SxState.out [] false
      else if c.toNat = 39 then shlexAux cs SxState.squote [] true
      else if c.toNat = 34 then shlexAux cs SxState.dquote [] true
      else if c.toNat = 92 then shlexAux cs SxState.esc [] false
      else shlexAux cs SxState.word [c] false
    | SxState.word =>
      if isShlexWs c then
        match shlexAux cs SxState.out [] false with
        | Except.error e => Except.error e
        | Except.ok rest =>
          Except.ok
            ((if acc = [] ∧ quoted = false then [] else [String.mk acc.reverse]) ++ rest)
      else if c.toNat = 39 then shlexAux cs SxState.squote acc true
      else if c.toNat = 34 then shlexAux cs SxState.dquote acc true
      else if c.toNat = 92 then shlexAux cs SxState.esc acc quoted
      else shlexAux cs SxState.word (c :: acc) quoted
    | SxState.squote =>
      if c.toNat = 39 then shlexAux cs SxState.word acc quoted
      else shlexAux cs SxState.squote (c :: acc) quoted
    | SxState.dquote =>
      if c.toNat = 34 then shlexAux cs SxState.word acc quoted
      else if c.toNat = 92 then shlexAux cs SxState.escDq acc quoted
      else shlexAux cs SxState.dquote (c :: acc) quoted
    | SxState.esc => shlexAux cs SxState.word (c :: acc) quoted
    | SxState.escDq =>
      if c.toNat = 34 ∨ c.toNat = 92 then shlexAux cs SxState.dquote (c :: acc) quoted
      else shlexAux cs SxState.dquote (c :: Char.ofNat 92 :: acc) quoted

/-- `shlex.split` of a command string: the token list, or the
`ValueError` it raises on malformed quoting. -/
def shlexSplit (s : String) : Except PyError (List String) :=
  shlexAux s.data SxState.out [] false

lemma wordsAux_append_space (rest : List Char) :
    ∀ (xs : List Char) (acc : List Char),
      wordsAux (xs ++ ' ' :: rest) acc = wordsAux xs acc ++ wordsAux rest []
  | [], acc => by
    show wordsAux (' ' :: rest) acc = wordsAux [] acc ++ wordsAux rest []
    by_cases h : acc = [] <;> simp [wordsAux, h, isShlexWs]
  | c :: xs, acc => by
    simp only [List.cons_append, wordsAux]
    split
    · by_cases h : acc = [] <;> simp [h, wordsAux_append_space rest xs]
    · exact wordsAux_append_space rest xs (c :: acc)

lemma wordsAux_nows :
    ∀ (xs : List Char) (acc : List Char), (∀ c ∈ xs, isShlexWs c = false) →
      wordsAux xs acc =
        if acc = [] ∧ xs = [] then [] else [String.mk (acc.reverse ++ xs)]
  | [], acc => by
    intro _
    simp only [wordsAux, List.append_nil]
    by_cases h : acc = [] <;> simp [h]
  | c :: xs, acc => by
    intro h
    have hc : isShlexWs c = false := h c (List.mem_cons_self c xs)
    have hxs : ∀ d ∈ xs, isShlexWs d = false := fun d hd => h d (List.mem_cons_of_mem c hd)
    simp only [wordsAux, hc, Bool.false_eq_true, if_false]
    rw [wordsAux_nows xs (c :: acc) hxs]
    simp

lemma words_append_space (a b : String) : words (a ++ " " ++ b) = words a ++ words b := by
  have h : (a ++ " " ++ b).data = a.data ++ ' ' :: b.data := by
    simp [strData_append]
  rw [words, h, wordsAux_append_space]
  rfl

lemma words_single (w : String) (h1 : ∀ c ∈ w.data, isShlexWs c = false) (h2 : w ≠ "") :
    words w = [w] := by
  rw [words, wordsAux_nows w.data [] h1]
  simp [strData_ne_nil w h2, strMk_data]

/-- On input free of quote and escape characters the `shlex` machine
never errors and agrees with plain whitespace splitting, from the
between-tokens state and from the in-word state alike. -/
lemma shlexAux_plain :
    ∀ (cs : List Char), (∀ c ∈ cs, shlexPlain c = true) →
      (shlexAux cs SxState.out [] false = Except.ok (wordsAux cs []) ∧
       ∀ acc, shlexAux cs SxState.word acc false = Except.ok (wordsAux cs acc))
  | [] => by
    intro _
    refine ⟨rfl, fun acc => ?_⟩
    by_cases h : acc = [] <;> simp [shlexAux, wordsAux, h]
  | c :: cs => by
    intro h
    have hc : shlexPlain c = true := h c (List.mem_cons_self c cs)
    have hcs : ∀ d ∈ cs, shlexPlain d = true := fun d hd => h d (List.mem_cons_of_mem c hd)
    have ih := shlexAux_plain cs hcs
    simp only [shlexPlain, decide_eq_true_eq] at hc
    obtain ⟨h39, h34, h92⟩ := hc
    by_cases hws : isShlexWs c = true
    · constructor
      · simp [shlexAux, wordsAux, hws, ih.1]
      · intro acc
        by_cases ha : acc = [] <;>
          simp [shlexAux, wordsAux, hws, ih.1, ha]
    · have hws' : isShlexWs c = false := by
        simpa using hws
      constructor
      · simp [shlexAux, wordsAux, hws', h39, h34, h92, ih.2 [c]]
      · intro acc
        simp [shlexAux, wordsAux, hws', h39, h34, h92, ih.2 (c :: acc)]

/-- `shlex.split` on a string free of quote and escape characters is
exactly whitespace splitting. -/
lemma shlexSplit_plain (s : String) (h : ∀ c ∈ s.data, shlexPlain c = true) :
    shlexSplit s = Except.ok (words s) :=
  (shlexAux_plain s.data h).1

lemma plainTokenChar_spec (c : Char) (h : plainTokenChar c = true) :
    shlexPlain c = true ∧ isShlexWs c = false := by
  simp only [plainTokenChar, Bool.and_eq_true, Bool.not_eq_true'] at h
  exact h

lemma plain_append (s t : String) (hs : ∀ c ∈ s.data, shlexPlain c = true)
    (ht : ∀ c ∈ t.data, shlexPlain c = true) :
    ∀ c ∈ (s ++ t).data, shlexPlain c = true := by
  intro c hc
  rw [strData_append] at hc
  rcases List.mem_append.mp hc with h | h
  · exact hs c h
  · exact ht c h

/-! ## Decomposition of the built commands into field segments -/

/-- The fixed leading part of every trunk command: executable path,
optional quiet flag, credential clause. -/
def trunkCred (p : TrunkParams) : String :=
  (if p.pn_quiet then "/usr/bin/cli" ++ " --quiet " else "/usr/bin/cli") ++
    " --user " ++ p.pn_cliusername ++ ":" ++ p.pn_clipassword ++ " "

/-- The operation clause of a trunk command: `' %s name %s '`. -/
def trunkOpSeg (p : TrunkParams) : String :=
  " " ++ p.pn_command ++ " name " ++ p.pn_name ++ " "

/-- The fixed leading part of every VLAG command (quiet flag and
credentials are assembled in a single statement in `pn_vlag.py`). -/
def vlagCred (p : VlagParams) : String :=
  if p.pn_quiet then
    "/usr/bin/cli --quiet --user " ++ p.pn_cliusername ++ ":" ++ p.pn_clipassword ++ " "
  else
    "/usr/bin/cli --user " ++ p.pn_cliusername ++ ":" ++ p.pn_clipassword ++ " "

/-- The operation clause of a VLAG command: `' ' + command + ' name ' + name`. -/
def vlagOpSeg (p : VlagParams) : String :=
  " " ++ p.pn_command ++ " name " ++ p.pn_name

/-- A successfully built trunk command is the concatenation of its
segments, in the declaration order of `pn_trunk.py`. -/
lemma trunk_decomp (p : TrunkParams) (h : pyTruthyInt p.pn_lacp_priority = false) :
    buildTrunkCli p = Except.ok
      (trunkCred p ++ switchClauseTrunk p.pn_cliswitch ++ trunkOpSeg p ++
        strSeg "ports" p.pn_ports ++ strSeg "speed" p.pn_speed ++
        strSeg "egress-rate-limit" p.pn_egress_rate_limit ++
        triSeg "jumbo" "no-jumbo" p.pn_jumbo ++
        strSeg "lacp-mode" p.pn_lacp_mode ++
        strSeg "lacp-timeout" p.pn_lacp_timeout ++
        strSeg "lacp-fallback" p.pn_lacp_fallback ++
        strSeg "lacp-fallback-timeout" p.pn_lacp_fallback_timeout ++
        triSeg "edge-switch" "no-edge-switch" p.pn_edge_switch ++
        triSeg "pause" "no-pause" p.pn_pause ++
        strSeg "description" p.pn_description ++
        triSeg "loopback" "no-loopback" p.pn_loopback ++
        triSeg "mirror-receive-only" "no-mirror-receive-only" p.pn_mirror_receive ++
        strSeg "unknown-ucast-level" p.pn_unknown_ucast_level ++
        strSeg "unknown-mcast-level" p.pn_unknown_mcast_level ++
        strSeg "broadcast-level" p.pn_broadcast_level ++
        strSeg "port-mac-address" p.pn_port_macaddr ++
        strSeg "loopvlans" p.pn_loopvlans ++
        triSeg "routing" "no-routing" p.pn_routing ++
        triSeg "host-enable" "host-disable" p.pn_host) := by
  simp [buildTrunkCli, trunkCred, trunkOpSeg, h, strAppend_assoc]

/-- A VLAG command is the concatenation of its segments, in the
declaration order of `pn_vlag.py`. -/
lemma vlag_decomp (p : VlagParams) :
    buildVlagCli p =
      vlagCred p ++ switchClauseVlag p.pn_cliswitch ++ vlagOpSeg p ++
        strSeg "port" p.pn_port ++ strSeg "peer-port" p.pn_peer_port ++
        strSeg "mode" p.pn_mode ++ peerSwitchSeg p.pn_peer_switch ++
        failoverSeg p.pn_failover_action ++ strSeg "lacp-mode" p.pn_lacp_mode ++
        strSeg "lacp-timeout" p.pn_lacp_timeout ++
        strSeg "lacp-fallback" p.pn_lacp_fallback ++
        strSeg "lacp-fallback-timeout" p.pn_lacp_fallback_timeout := by
  simp [buildVlagCli, vlagCred, vlagOpSeg, strAppend_assoc]

/-! ## Module pipeline: validation, building, subprocess launch -/

/-- The raw arguments supplied to the trunk module before validation:
every parameter may be absent. -/
structure TrunkArgs where
  pn_cliusername : Option String
  pn_clipassword : Option String
  pn_cliswitch : Option String
  pn_command : Option String
  pn_name : Option String
  pn_ports : Option String
  pn_speed : Option String
  pn_egress_rate_limit : Option String
  pn_jumbo : Option Bool
  pn_lacp_mode : Option String
  pn_lacp_priority : Option Int
  pn_lacp_timeout : Option String
  pn_lacp_fallback : Option String
  pn_lacp_fallback_timeout : Option String
  pn_edge_switch : Option Bool
  pn_pause : Option Bool
  pn_description : Option String
  pn_loopback : Option Bool
  pn_mirror_receive : Option Bool
  pn_unknown_ucast_level : Option String
  pn_unknown_mcast_level : Option String
  pn_broadcast_level : Option String
  pn_port_macaddr : Option String
  pn_loopvlans : Option String
  pn_routing : Option Bool
  pn_host : Option Bool
  pn_quiet : Option Bool

/-- Modelled from the spec: the AnsibleModule constructor's argument
validation, whose framework source is not part of this repository.  It
enforces the declarations of `pn_trunk.py` lines 195-234: the
`required=True` parameters (`pn_cliusername`, `pn_clipassword`,
`pn_command`, `pn_name`) must be present, `pn_command` must be one of
its three choices, the `required_if` table demands `pn_name` and
`pn_ports` for `trunk-create` and `pn_name` for `trunk-delete` and
`trunk-modify`, and `pn_quiet` defaults to `True`.  Validation failure
aborts the module before any further work (per-field enum choices of
other optional parameters are not modelled; they do not affect the
claims).  Returns the validated parameter record on success. -/
def trunkValidate (a : TrunkArgs) : Option TrunkParams :=
  match a.pn_cliusername, a.pn_clipassword, a.pn_command, a.pn_name with
  | some u, some pw, some cmd, some nm =>
    if cmd = "trunk-create" ∨ cmd = "trunk-delete" ∨ cmd = "trunk-modify" then
      if cmd = "trunk-create" ∧ a.pn_ports = none then none
      else
        some
          { pn_cliusername := u, pn_clipassword := pw, pn_cliswitch := a.pn_cliswitch,
            pn_command := cmd, pn_name := nm, pn_ports := a.pn_ports,
            pn_speed := a.pn_speed, pn_egress_rate_limit := a.pn_egress_rate_limit,
            pn_jumbo := a.pn_jumbo, pn_lacp_mode := a.pn_lacp_mode,
            pn_lacp_priority := a.pn_lacp_priority, pn_lacp_timeout := a.pn_lacp_timeout,
            pn_lacp_fallback := a.pn_lacp_fallback,
            pn_lacp_fallback_timeout := a.pn_lacp_fallback_timeout,
            pn_edge_switch := a.pn_edge_switch, pn_pause := a.pn_pause,
            pn_description := a.pn_description, pn_loopback := a.pn_loopback,
            pn_mirror_receive := a.pn_mirror_receive,
            pn_unknown_ucast_level := a.pn_unknown_ucast_level,
            pn_unknown_mcast_level := a.pn_unknown_mcast_level,
            pn_broadcast_level := a.pn_broadcast_level,
            pn_port_macaddr := a.pn_port_macaddr, pn_loopvlans := a.pn_loopvlans,
            pn_routing := a.pn_routing, pn_host := a.pn_host,
            pn_quiet := a.pn_quiet.getD true }
    else none
  | _, _, _, _ => none

/-- The raw arguments supplied to the VLAG module before validation. -/
structure VlagArgs where
  pn_cliusername : Option String
  pn_clipassword : Option String
  pn_cliswitch : Option String
  pn_command : Option String
  pn_name : Option String
  pn_port : Option String
  pn_peer_port : Option String
  pn_mode : Option String
  pn_peer_switch : Option String
  pn_failover_action : Option String
  pn_lacp_mode : Option String
  pn_lacp_timeout : Option String
  pn_lacp_fallback : Option String
  pn_lacp_fallback_timeout : Option String
  pn_quiet : Option Bool

/-- Modelled from the spec: AnsibleModule argument validation for
`pn_vlag.py` lines 144-179; the `required_if` table demands `pn_name`,
`pn_port` and `pn_peer_port` for `vlag-create` and `pn_name` for
`vlag-delete` and `vlag-modify`. -/
def vlagValidate (a : VlagArgs) : Option VlagParams :=
  match a.pn_cliusername, a.pn_clipassword, a.pn_command, a.pn_name with
  | some u, some pw, some cmd, some nm =>
    if cmd = "vlag-create" ∨ cmd = "vlag-delete" ∨ cmd = "vlag-modify" then
      if cmd = "vlag-create" ∧ (a.pn_port = none ∨ a.pn_peer_port = none) then none
      else
        some
          { pn_cliusername := u, pn_clipassword := pw, pn_cliswitch := a.pn_cliswitch,
            pn_command := cmd, pn_name := nm, pn_port := a.pn_port,
            pn_peer_port := a.pn_peer_port, pn_mode := a.pn_mode,
            pn_peer_switch := a.pn_peer_switch,
            pn_failover_action := a.pn_failover_action,
            pn_lacp_mode := a.pn_lacp_mode, pn_lacp_timeout := a.pn_lacp_timeout,
            pn_lacp_fallback := a.pn_lacp_fallback,
            pn_lacp_fallback_timeout := a.pn_lacp_fallback_timeout,
            pn_quiet := a.pn_quiet.getD true }
    else none
  | _, _, _, _ => none

/-- How far one module invocation gets: rejected by validation (no
subprocess), crashed on an uncaught Python error (no subprocess), or
reaching `subprocess.Popen` with the `shlex.split` argument vector. -/
inductive ModuleRun
  | rejected
  | crashed (e : PyError)
  | launched (argv : List String)
deriving DecidableEq

/-- One run of `pn_trunk.py` `main()` up to the subprocess launch:
validate, build the command string, tokenize it with `shlex.split` (an
uncaught `ValueError` from malformed quoting crashes the run). -/
def trunkMain (a : TrunkArgs) : ModuleRun :=
  match trunkValidate a with
  | none => ModuleRun.rejected
  | some p =>
    match buildTrunkCli p with
    | Except.error e => ModuleRun.crashed e
    | Except.ok cli =>
      match shlexSplit cli with
      | Except.error e => ModuleRun.crashed e
      | Except.ok argv => ModuleRun.launched argv

/-- One run of `pn_vlag.py` `main()` up to the subprocess launch. -/
def vlagMain (a : VlagArgs) : ModuleRun :=
  match vlagValidate a with
  | none => ModuleRun.rejected
  | some p =>
    match shlexSplit (buildVlagCli p) with
    | Except.error e => ModuleRun.crashed e
    | Except.ok argv => ModuleRun.launched argv

/-! ## Groupings of segments used by the claim statements -/

/-- Everything a trunk command emits before the first tri-state boolean
field (`jumbo`). -/
def trunkPre (p : TrunkParams) : String :=
  trunkCred p ++ switchClauseTrunk p.pn_cliswitch ++ trunkOpSeg p ++
    strSeg "ports" p.pn_ports ++ strSeg "speed" p.pn_speed ++
    strSeg "egress-rate-limit" p.pn_egress_rate_limit

/-- The LACP string segments between `jumbo` and `edge_switch`. -/
def trunkMid1 (p : TrunkParams) : String :=
  strSeg "lacp-mode" p.pn_lacp_mode ++ strSeg "lacp-timeout" p.pn_lacp_timeout ++
    strSeg "lacp-fallback" p.pn_lacp_fallback ++
    strSeg "lacp-fallback-timeout" p.pn_lacp_fallback_timeout

/-- The level and address string segments between `mirror_receive` and
`routing`. -/
def trunkMid2 (p : TrunkParams) : String :=
  strSeg "unknown-ucast-level" p.pn_unknown_ucast_level ++
    strSeg "unknown-mcast-level" p.pn_unknown_mcast_level ++
    strSeg "broadcast-level" p.pn_broadcast_level ++
    strSeg "port-mac-address" p.pn_port_macaddr ++ strSeg "loopvlans" p.pn_loopvlans

/-- All trunk field segments after the operation clause. -/
def trunkFields (p : TrunkParams) : String :=
  strSeg "ports" p.pn_ports ++ strSeg "speed" p.pn_speed ++
    strSeg "egress-rate-limit" p.pn_egress_rate_limit ++
    triSeg "jumbo" "no-jumbo" p.pn_jumbo ++ trunkMid1 p ++
    triSeg "edge-switch" "no-edge-switch" p.pn_edge_switch ++
    triSeg "pause" "no-pause" p.pn_pause ++ strSeg "description" p.pn_description ++
    triSeg "loopback" "no-loopback" p.pn_loopback ++
    triSeg "mirror-receive-only" "no-mirror-receive-only" p.pn_mirror_receive ++
    trunkMid2 p ++ triSeg "routing" "no-routing" p.pn_routing ++
    triSeg "host-enable" "host-disable" p.pn_host

/-- All VLAG field segments after the operation clause. -/
def vlagFields (p : VlagParams) : String :=
  strSeg "port" p.pn_port ++ strSeg "peer-port" p.pn_peer_port ++
    strSeg "mode" p.pn_mode ++ peerSwitchSeg p.pn_peer_switch ++
    failoverSeg p.pn_failover_action ++ strSeg "lacp-mode" p.pn_lacp_mode ++
    strSeg "lacp-timeout" p.pn_lacp_timeout ++
    strSeg "lacp-fallback" p.pn_lacp_fallback ++
    strSeg "lacp-fallback-timeout" p.pn_lacp_fallback_timeout

/-- Everything a VLAG command emits before the `peer_switch` segment. -/
def vlagPre7 (p : VlagParams) : String :=
  vlagCred p ++ switchClauseVlag p.pn_cliswitch ++ vlagOpSeg p ++
    strSeg "port" p.pn_port ++ strSeg "peer-port" p.pn_peer_port ++
    strSeg "mode" p.pn_mode

/-- Everything a VLAG command emits after the `peer_switch` segment. -/
def vlagPost7 (p : VlagParams) : String :=
  failoverSeg p.pn_failover_action ++ strSeg "lacp-mode" p.pn_lacp_mode ++
    strSeg "lacp-timeout" p.pn_lacp_timeout ++
    strSeg "lacp-fallback" p.pn_lacp_fallback ++
    strSeg "lacp-fallback-timeout" p.pn_lacp_fallback_timeout

/-- Everything a VLAG command emits before the `failover_action`
segment. -/
def vlagPre8 (p : VlagParams) : String :=
  vlagPre7 p ++ peerSwitchSeg p.pn_peer_switch

/-- The LACP segments after the `failover_action` segment. -/
def vlagPost8 (p : VlagParams) : String :=
  strSeg "lacp-mode" p.pn_lacp_mode ++ strSeg "lacp-timeout" p.pn_lacp_timeout ++
    strSeg "lacp-fallback" p.pn_lacp_fallback ++
    strSeg "lacp-fallback-timeout" p.pn_lacp_fallback_timeout

/-- A trunk-create request with only the name and ports fields set:
quiet defaulted to true, no switch, every other optional field absent. -/
def trunkCreateMinimal (u pw nm pp : String) : TrunkParams :=
  { pn_cliusername := u, pn_clipassword := pw, pn_cliswitch := none,
    pn_command := "trunk-create", pn_name := nm, pn_ports := some pp,
    pn_speed := none, pn_egress_rate_limit := none, pn_jumbo := none,
    pn_lacp_mode := none, pn_lacp_priority := none, pn_lacp_timeout := none,
    pn_lacp_fallback := none, pn_lacp_fallback_timeout := none,
    pn_edge_switch := none, pn_pause := none, pn_description := none,
    pn_loopback := none, pn_mirror_receive := none,
    pn_unknown_ucast_level := none, pn_unknown_mcast_level := none,
    pn_broadcast_level := none, pn_port_macaddr := none, pn_loopvlans := none,
    pn_routing := none, pn_host := none, pn_quiet := true }

/-! ## Claim theorems -/

/-- C1 (amended): in both families the report is a failure exactly when
the captured stderr text is non-empty BEFORE trimming (the emptiness
test `if err:` precedes the trimming), regardless of the process exit
code; a failure carries the rendered command string, the stderr text
trimmed of trailing line terminators, and changed=false (plus rc 1 in
the VLAG family), and otherwise the report is a success carrying the
command string, the trimmed stdout text, and changed=true (plus rc 0 in
the VLAG family). -/
theorem c1_reporting (cli out err : String) :
    ((trunkReport cli out err).changed = false ↔ err ≠ "") ∧
    ((vlagReport cli out err).changed = false ↔ err ≠ "") ∧
    (err ≠ "" →
      trunkReport cli out err =
        { command := cli, stdout := none, stderr := some (rstripCRLF err), rc := none,
          changed := false } ∧
      vlagReport cli out err =
        { command := cli, stdout := none, stderr := some (rstripCRLF err), rc := some 1,
          changed := false }) ∧
    (err = "" →
      trunkReport cli out err =
        { command := cli, stdout := some (rstripCRLF out), stderr := none, rc := none,
          changed := true } ∧
      vlagReport cli out err =
        { command := cli, stdout := some (rstripCRLF out), stderr := none, rc := some 0,
          changed := true }) := by
  by_cases h : err = "" <;> simp [trunkReport, vlagReport, h]

/-- C1 witness: concrete failure and success reports. -/
theorem c1_reporting_witness :
    ("bad port" : String) ≠ "" ∧
    trunkReport "/usr/bin/cli x" "out" "bad port" =
      { command := "/usr/bin/cli x", stdout := none, stderr := some "bad port",
        rc := none, changed := false } ∧
    vlagReport "/usr/bin/cli x" "ok" "" =
      { command := "/usr/bin/cli x", stdout := some "ok", stderr := none,
        rc := some 0, changed := true } :=
  ⟨by decide,
   ((c1_reporting "/usr/bin/cli x" "out" "bad port").2.2.1 (by decide)).1,
   ((c1_reporting "/usr/bin/cli x" "ok" "").2.2.2 rfl).2⟩

/-- C1 counterexample: with captured stderr consisting of a lone
newline, the trimmed stderr text is empty, yet the module reports a
failure — so failure is NOT equivalent to the trimmed stderr being
non-empty, refuting the claim as stated. -/
theorem c1_counterexample :
    ¬ ∀ cli out err : String,
        ((trunkReport cli out err).changed = false ↔ rstripCRLF err ≠ "") := by
  intro h
  exact (h "c" "ok" "\n").mp (by decide) (by decide)

/-- The failing input for C6: a well-formed trunk-create request that
additionally sets the integer field lacp_priority. -/
def trunkLacpExample : TrunkParams :=
  { trunkCreateMinimal "admin" "admin" "spine-to-leaf" "11,12,13,14" with
    pn_lacp_priority := some 1000 }

/-- C6: evaluating the command builder at the failing input.  The claim
says building succeeds and renders `lacp-priority 1000`; the code
instead raises a Python TypeError at `cli += ' lacp-priority ' +
lacp_priority` (str + int, `pn_trunk.py` lines 294-295), so no command
is ever produced — the builder is NOT total over well-formed input. -/
theorem c6_lacp_priority_type_error :
    buildTrunkCli trunkLacpExample = Except.error PyError.typeError := rfl

/-- C10: for every optional field whose presence is tested by Python
truthiness, a falsy value is indistinguishable from omitting the field:
setting a string field to the empty string, or the integer field
lacp_priority to 0, yields exactly the same result as leaving the field
absent — in both families and for every truthiness-tested field. -/
theorem c10_falsy_is_absent :
    (∀ p : TrunkParams,
      buildTrunkCli { p with pn_cliswitch := some "" } =
        buildTrunkCli { p with pn_cliswitch := none } ∧
      buildTrunkCli { p with pn_ports := some "" } =
        buildTrunkCli { p with pn_ports := none } ∧
      buildTrunkCli { p with pn_speed := some "" } =
        buildTrunkCli { p with pn_speed := none } ∧
      buildTrunkCli { p with pn_egress_rate_limit := some "" } =
        buildTrunkCli { p with pn_egress_rate_limit := none } ∧
      buildTrunkCli { p with pn_lacp_mode := some "" } =
        buildTrunkCli { p with pn_lacp_mode := none } ∧
      buildTrunkCli { p with pn_lacp_priority := some 0 } =
        buildTrunkCli { p with pn_lacp_priority := none } ∧
      buildTrunkCli { p with pn_lacp_timeout := some "" } =
        buildTrunkCli { p with pn_lacp_timeout := none } ∧
      buildTrunkCli { p with pn_lacp_fallback := some "" } =
        buildTrunkCli { p with pn_lacp_fallback := none } ∧
      buildTrunkCli { p with pn_lacp_fallback_timeout := some "" } =
        buildTrunkCli { p with pn_lacp_fallback_timeout := none } ∧
      buildTrunkCli { p with pn_description := some "" } =
        buildTrunkCli { p with pn_description := none } ∧
      buildTrunkCli { p with pn_unknown_ucast_level := some "" } =
        buildTrunkCli { p with pn_unknown_ucast_level := none } ∧
      buildTrunkCli { p with pn_unknown_mcast_level := some "" } =
        buildTrunkCli { p with pn_unknown_mcast_level := none } ∧
      buildTrunkCli { p with pn_broadcast_level := some "" } =
        buildTrunkCli { p with pn_broadcast_level := none } ∧
      buildTrunkCli { p with pn_port_macaddr := some "" } =
        buildTrunkCli { p with pn_port_macaddr := none } ∧
      buildTrunkCli { p with pn_loopvlans := some "" } =
        buildTrunkCli { p with pn_loopvlans := none }) ∧
    (∀ q : VlagParams,
      buildVlagCli { q with pn_cliswitch := some "" } =
        buildVlagCli { q with pn_cliswitch := none } ∧
      buildVlagCli { q with pn_port := some "" } =
        buildVlagCli { q with pn_port := none } ∧
      buildVlagCli { q with pn_peer_port := some "" } =
        buildVlagCli { q with pn_peer_port := none } ∧
      buildVlagCli { q with pn_mode := some "" } =
        buildVlagCli { q with pn_mode := none } ∧
      buildVlagCli { q with pn_peer_switch := some "" } =
        buildVlagCli { q with pn_peer_switch := none } ∧
      buildVlagCli { q with pn_failover_action := some "" } =
        buildVlagCli { q with pn_failover_action := none } ∧
      buildVlagCli { q with pn_lacp_mode := some "" } =
        buildVlagCli { q with pn_lacp_mode := none } ∧
      buildVlagCli { q with pn_lacp_timeout := some "" } =
        buildVlagCli { q with pn_lacp_timeout := none } ∧
      buildVlagCli { q with pn_lacp_fallback := some "" } =
        buildVlagCli { q with pn_lacp_fallback := none } ∧
      buildVlagCli { q with pn_lacp_fallback_timeout := some "" } =
        buildVlagCli { q with pn_lacp_fallback_timeout := none }) :=
  ⟨fun _ => ⟨rfl, rfl, rfl, rfl, rfl, rfl, rfl, rfl, rfl, rfl, rfl, rfl, rfl, rfl, rfl⟩,
   fun _ => ⟨rfl, rfl, rfl, rfl, rfl, rfl, rfl, rfl, rfl, rfl⟩⟩

/-- C9: command building is deterministic and pure — the built command
is a function of the request's explicitly listed fields alone, so two
requests that agree on every field (credentials included) produce
identical results. -/
theorem c9_deterministic :
    (∀ p q : TrunkParams,
      p.pn_cliusername = q.pn_cliusername ∧ p.pn_clipassword = q.pn_clipassword ∧
      p.pn_cliswitch = q.pn_cliswitch ∧ p.pn_command = q.pn_command ∧
      p.pn_name = q.pn_name ∧ p.pn_ports = q.pn_ports ∧ p.pn_speed = q.pn_speed ∧
      p.pn_egress_rate_limit = q.pn_egress_rate_limit ∧ p.pn_jumbo = q.pn_jumbo ∧
      p.pn_lacp_mode = q.pn_lacp_mode ∧ p.pn_lacp_priority = q.pn_lacp_priority ∧
      p.pn_lacp_timeout = q.pn_lacp_timeout ∧
      p.pn_lacp_fallback = q.pn_lacp_fallback ∧
      p.pn_lacp_fallback_timeout = q.pn_lacp_fallback_timeout ∧
      p.pn_edge_switch = q.pn_edge_switch ∧ p.pn_pause = q.pn_pause ∧
      p.pn_description = q.pn_description ∧ p.pn_loopback = q.pn_loopback ∧
      p.pn_mirror_receive = q.pn_mirror_receive ∧
      p.pn_unknown_ucast_level = q.pn_unknown_ucast_level ∧
      p.pn_unknown_mcast_level = q.pn_unknown_mcast_level ∧
      p.pn_broadcast_level = q.pn_broadcast_level ∧
      p.pn_port_macaddr = q.pn_port_macaddr ∧ p.pn_loopvlans = q.pn_loopvlans ∧
      p.pn_routing = q.pn_routing ∧ p.pn_host = q.pn_host ∧
      p.pn_quiet = q.pn_quiet →
      buildTrunkCli p = buildTrunkCli q) ∧
    (∀ p q : VlagParams,
      p.pn_cliusername = q.pn_cliusername ∧ p.pn_clipassword = q.pn_clipassword ∧
      p.pn_cliswitch = q.pn_cliswitch ∧ p.pn_command = q.pn_command ∧
      p.pn_name = q.pn_name ∧ p.pn_port = q.pn_port ∧
      p.pn_peer_port = q.pn_peer_port ∧ p.pn_mode = q.pn_mode ∧
      p.pn_peer_switch = q.pn_peer_switch ∧
      p.pn_failover_action = q.pn_failover_action ∧
      p.pn_lacp_mode = q.pn_lacp_mode ∧ p.pn_lacp_timeout = q.pn_lacp_timeout ∧
      p.pn_lacp_fallback = q.pn_lacp_fallback ∧
      p.pn_lacp_fallback_timeout = q.pn_lacp_fallback_timeout ∧
      p.pn_quiet = q.pn_quiet →
      buildVlagCli p = buildVlagCli q) := by
  constructor
  · intro p q h
    have hpq : p = q := by
      cases p
      cases q
      simp_all
    rw [hpq]
  · intro p q h
    have hpq : p = q := by
      cases p
      cases q
      simp_all
    rw [hpq]

/-- C9 witness: determinism applied at a concrete request, giving the
byte-identical result of two invocations on the same request. -/
theorem c9_deterministic_witness :
    buildTrunkCli (trunkCreateMinimal "admin" "admin" "t1" "11,12") =
      buildTrunkCli (trunkCreateMinimal "admin" "admin" "t1" "11,12") :=
  c9_deterministic.1 _ _
    ⟨rfl, rfl, rfl, rfl, rfl, rfl, rfl, rfl, rfl, rfl, rfl, rfl, rfl, rfl,
     rfl, rfl, rfl, rfl, rfl, rfl, rfl, rfl, rfl, rfl, rfl, rfl, rfl⟩

/-- C2: for every tri-state boolean field of the trunk family (the VLAG
family declares none), the builder renders the field's true-token when
the value is true, its false-token when the value is false, and nothing
when the field is absent — the regular fields use the bare token and
its `no-` prefix, the irregular ones being mirror_receive
(`mirror-receive-only` / `no-mirror-receive-only`) and host
(`host-enable` / `host-disable`).  The builder output factors through
`triSeg` at each of the seven tri-bool positions. -/
theorem c2_tribool_rendering :
    (∀ p : TrunkParams, pyTruthyInt p.pn_lacp_priority = false →
      buildTrunkCli p = Except.ok
        (trunkPre p ++ triSeg "jumbo" "no-jumbo" p.pn_jumbo ++ trunkMid1 p ++
          triSeg "edge-switch" "no-edge-switch" p.pn_edge_switch ++
          triSeg "pause" "no-pause" p.pn_pause ++
          strSeg "description" p.pn_description ++
          triSeg "loopback" "no-loopback" p.pn_loopback ++
          triSeg "mirror-receive-only" "no-mirror-receive-only" p.pn_mirror_receive ++
          trunkMid2 p ++ triSeg "routing" "no-routing" p.pn_routing ++
          triSeg "host-enable" "host-disable" p.pn_host)) ∧
    (∀ tTok fTok : String,
      triSeg tTok fTok (some true) = " " ++ tTok ++ " " ∧
      triSeg tTok fTok (some false) = " " ++ fTok ++ " " ∧
      triSeg tTok fTok none = "") := by
  constructor
  · intro p h
    rw [trunk_decomp p h]
    simp [trunkPre, trunkMid1, trunkMid2, strAppend_assoc]
  · exact fun tTok fTok => ⟨rfl, rfl, rfl⟩

/-- A trunk-create request exercising a true-valued tri-bool field. -/
def trunkJumboExample : TrunkParams :=
  { trunkCreateMinimal "admin" "admin" "t1" "11,12" with pn_jumbo := some true }

/-- C2 witness: the decomposition applied at a concrete request. -/
theorem c2_tribool_rendering_witness :
    buildTrunkCli trunkJumboExample = Except.ok
      (trunkPre trunkJumboExample ++
        triSeg "jumbo" "no-jumbo" trunkJumboExample.pn_jumbo ++
        trunkMid1 trunkJumboExample ++
        triSeg "edge-switch" "no-edge-switch" trunkJumboExample.pn_edge_switch ++
        triSeg "pause" "no-pause" trunkJumboExample.pn_pause ++
        strSeg "description" trunkJumboExample.pn_description ++
        triSeg "loopback" "no-loopback" trunkJumboExample.pn_loopback ++
        triSeg "mirror-receive-only" "no-mirror-receive-only"
          trunkJumboExample.pn_mirror_receive ++
        trunkMid2 trunkJumboExample ++
        triSeg "routing" "no-routing" trunkJumboExample.pn_routing ++
        triSeg "host-enable" "host-disable" trunkJumboExample.pn_host) :=
  c2_tribool_rendering.1 trunkJumboExample rfl

/-- A concrete VLAG request whose target switch is the sentinel value
"local". -/
def vlagLocalExample : VlagParams :=
  { pn_cliusername := "admin", pn_clipassword := "admin", pn_cliswitch := some "local",
    pn_command := "vlag-create", pn_name := "v1", pn_port := none,
    pn_peer_port := none, pn_mode := none, pn_peer_switch := none,
    pn_failover_action := none, pn_lacp_mode := none, pn_lacp_timeout := none,
    pn_lacp_fallback := none, pn_lacp_fallback_timeout := none, pn_quiet := true }

/-- C3 counterexample: in the VLAG family the switch value "local" is
NOT turned into the literal token `switch-local`; the builder emits the
two tokens `switch local` instead, refuting the claim for the VLAG
family. -/
theorem c3_counterexample :
    words (buildVlagCli vlagLocalExample) =
      ["/usr/bin/cli", "--quiet", "--user", "admin:admin", "switch", "local",
       "vlag-create", "name", "v1"] ∧
    "switch-local" ∉ words (buildVlagCli vlagLocalExample) := by
  constructor
  · rfl
  · decide

/-- C3 (amended): both families emit their switch-selection clause
between the credential flag and the operation token whenever a target
switch is specified, but only the TRUNK family translates the sentinel
value "local" into the literal token `switch-local`; the VLAG family
always emits `switch <value>`, even for the value "local". -/
theorem c3_switch_clause :
    (∀ p : TrunkParams, pyTruthyInt p.pn_lacp_priority = false →
      buildTrunkCli p = Except.ok
        (trunkCred p ++ switchClauseTrunk p.pn_cliswitch ++ trunkOpSeg p ++
          trunkFields p)) ∧
    (switchClauseTrunk (some "local") = " switch-local ") ∧
    (∀ s : String, s ≠ "" → s ≠ "local" →
      switchClauseTrunk (some s) = " switch " ++ s) ∧
    (∀ q : VlagParams,
      buildVlagCli q =
        vlagCred q ++ switchClauseVlag q.pn_cliswitch ++ vlagOpSeg q ++
          vlagFields q) ∧
    (∀ s : String, s ≠ "" → switchClauseVlag (some s) = " switch " ++ s) := by
  refine ⟨?_, rfl, ?_, ?_, ?_⟩
  · intro p h
    rw [trunk_decomp p h]
    simp [trunkFields, trunkMid1, trunkMid2, strAppend_assoc]
  · intro s h1 h2
    simp [switchClauseTrunk, h1, h2]
  · intro q
    rw [vlag_decomp q]
    simp [vlagFields, strAppend_assoc]
  · intro s h1
    simp [switchClauseVlag, h1]

/-- A concrete trunk request targeting the sentinel switch "local". -/
def trunkLocalExample : TrunkParams :=
  { trunkCreateMinimal "admin" "admin" "t1" "11,12" with pn_cliswitch := some "local" }

/-- C3 witness: the amended claim applied at concrete inputs of both
families. -/
theorem c3_switch_clause_witness :
    buildTrunkCli trunkLocalExample = Except.ok
      (trunkCred trunkLocalExample ++ " switch-local " ++ trunkOpSeg trunkLocalExample ++
        trunkFields trunkLocalExample) ∧
    switchClauseVlag (some "spine02") = " switch " ++ "spine02" :=
  ⟨c3_switch_clause.2.1 ▸ c3_switch_clause.1 trunkLocalExample rfl,
   c3_switch_clause.2.2.2.2 "spine02" (by decide)⟩

/-- C7: whenever the VLAG peer_switch field is present (and truthy),
the builder appends ` peer-switch<value>` with no separating space
between the field token and the value, so the clause contributes the
single token `peer-switch<value>`. -/
theorem c7_peer_switch_no_space :
    (∀ p : VlagParams,
      buildVlagCli p = vlagPre7 p ++ peerSwitchSeg p.pn_peer_switch ++ vlagPost7 p) ∧
    (∀ s : String, s ≠ "" → peerSwitchSeg (some s) = " peer-switch" ++ s) ∧
    peerSwitchSeg none = "" := by
  refine ⟨?_, ?_, rfl⟩
  · intro p
    rw [vlag_decomp p]
    simp [vlagPre7, vlagPost7, strAppend_assoc]
  · intro s h
    simp [peerSwitchSeg, h]

/-- The end-to-end VLAG example of the spec: vlag-create with port,
peer_port, peer_switch and mode set. -/
def vlagExample2 : VlagParams :=
  { pn_cliusername := "admin", pn_clipassword := "admin", pn_cliswitch := none,
    pn_command := "vlag-create", pn_name := "spine-to-leaf",
    pn_port := some "spine01-to-leaf", pn_peer_port := some "spine02-to-leaf",
    pn_mode := some "active-active", pn_peer_switch := some "spine02",
    pn_failover_action := none, pn_lacp_mode := none, pn_lacp_timeout := none,
    pn_lacp_fallback := none, pn_lacp_fallback_timeout := none, pn_quiet := true }

/-- C7 witness: with peer_switch = "spine02" the rendered clause is
` peer-switchspine02`, and the decomposition holds at the example. -/
theorem c7_peer_switch_no_space_witness :
    peerSwitchSeg (some "spine02") = " peer-switch" ++ "spine02" ∧
    buildVlagCli vlagExample2 =
      vlagPre7 vlagExample2 ++ peerSwitchSeg vlagExample2.pn_peer_switch ++
        vlagPost7 vlagExample2 :=
  ⟨c7_peer_switch_no_space.2.1 "spine02" (by decide),
   c7_peer_switch_no_space.1 vlagExample2⟩

/-- C8: whenever the VLAG failover_action field is present (and
truthy), the builder renders it as the special-shaped segment
` failover-<value>-L2 ` rather than the generic token-value pair. -/
theorem c8_failover_action_shape :
    (∀ p : VlagParams,
      buildVlagCli p =
        vlagPre8 p ++ failoverSeg p.pn_failover_action ++ vlagPost8 p) ∧
    (∀ s : String, s ≠ "" → failoverSeg (some s) = " failover-" ++ s ++ "-L2 ") ∧
    failoverSeg none = "" := by
  refine ⟨?_, ?_, rfl⟩
  · intro p
    rw [vlag_decomp p]
    simp [vlagPre8, vlagPre7, vlagPost8, strAppend_assoc]
  · intro s h
    simp [failoverSeg, h]

/-- C8 witness: with failover_action = "move" the rendered segment is
` failover-move-L2 `, and the decomposition holds at a concrete
request. -/
theorem c8_failover_action_shape_witness :
    failoverSeg (some "move") = " failover-" ++ "move" ++ "-L2 " ∧
    buildVlagCli vlagExample2 =
      vlagPre8 vlagExample2 ++ failoverSeg vlagExample2.pn_failover_action ++
        vlagPost8 vlagExample2 :=
  ⟨c8_failover_action_shape.2.1 "move" (by decide),
   c8_failover_action_shape.1 vlagExample2⟩

/-- C4: a request missing a mandatory field for its operation kind
(trunk-create needs name and ports; vlag-create needs name, port and
peer_port; delete and modify need name) is rejected by validation
before any subprocess is launched — the run never reaches the
`subprocess.Popen` stage. -/
theorem c4_validation_rejects :
    (∀ a : TrunkArgs,
      ((a.pn_command = some "trunk-create" ∧ (a.pn_name = none ∨ a.pn_ports = none)) ∨
        ((a.pn_command = some "trunk-delete" ∨ a.pn_command = some "trunk-modify") ∧
          a.pn_name = none)) →
      trunkMain a = ModuleRun.rejected) ∧
    (∀ b : VlagArgs,
      ((b.pn_command = some "vlag-create" ∧
          (b.pn_name = none ∨ b.pn_port = none ∨ b.pn_peer_port = none)) ∨
        ((b.pn_command = some "vlag-delete" ∨ b.pn_command = some "vlag-modify") ∧
          b.pn_name = none)) →
      vlagMain b = ModuleRun.rejected) := by
  constructor
  · intro a h
    rcases hcu : a.pn_cliusername with _ | u <;>
      rcases hcp : a.pn_clipassword with _ | pw <;>
        rcases hnm : a.pn_name with _ | nm <;>
          rcases h with ⟨hc, hmiss⟩ | ⟨hc, hn⟩ <;>
            simp_all [trunkMain, trunkValidate]
  · intro b h
    rcases hcu : b.pn_cliusername with _ | u <;>
      rcases hcp : b.pn_clipassword with _ | pw <;>
        rcases hnm : b.pn_name with _ | nm <;>
          rcases h with ⟨hc, hmiss⟩ | ⟨hc, hn⟩ <;>
            simp_all [vlagMain, vlagValidate]

/-- A trunk-create argument set that omits the mandatory ports field. -/
def trunkArgsNoPorts : TrunkArgs :=
  { pn_cliusername := some "admin", pn_clipassword := some "admin",
    pn_cliswitch := none, pn_command := some "trunk-create",
    pn_name := some "t1", pn_ports := none, pn_speed := none,
    pn_egress_rate_limit := none, pn_jumbo := none, pn_lacp_mode := none,
    pn_lacp_priority := none, pn_lacp_timeout := none, pn_lacp_fallback := none,
    pn_lacp_fallback_timeout := none, pn_edge_switch := none, pn_pause := none,
    pn_description := none, pn_loopback := none, pn_mirror_receive := none,
    pn_unknown_ucast_level := none, pn_unknown_mcast_level := none,
    pn_broadcast_level := none, pn_port_macaddr := none, pn_loopvlans := none,
    pn_routing := none, pn_host := none, pn_quiet := none }

/-- C4 witness: a trunk-create request without ports is rejected before
any subprocess launch. -/
theorem c4_validation_rejects_witness :
    trunkMain trunkArgsNoPorts = ModuleRun.rejected :=
  c4_validation_rejects.1 trunkArgsNoPorts (Or.inl ⟨rfl, Or.inr rfl⟩)

/-- C5: for every well-formed trunk-create request in which only the
name and ports fields are set (quiet defaulted, no switch, every other
optional field absent) and whose credential and field values consist of
plain token characters (no whitespace, quote or escape characters, so
each value is one `shlex` token), building succeeds, `shlex.split`
raises no error, and the token sequence handed to the subprocess is
exactly `/usr/bin/cli --quiet --user <user>:<password> trunk-create
name <name> ports <ports>` — it ends with `trunk-create name <name>
ports <ports>` and contains no token of any other optional field. -/
theorem c5_minimal_trunk_create (u pw nm pp : String)
    (hu : ∀ c ∈ u.data, plainTokenChar c = true)
    (hw : ∀ c ∈ pw.data, plainTokenChar c = true)
    (hn : ∀ c ∈ nm.data, plainTokenChar c = true) (hn0 : nm ≠ "")
    (hp : ∀ c ∈ pp.data, plainTokenChar c = true) (hp0 : pp ≠ "") :
    Except.bind (buildTrunkCli (trunkCreateMinimal u pw nm pp)) shlexSplit =
      Except.ok ["/usr/bin/cli", "--quiet", "--user", u ++ ":" ++ pw,
                 "trunk-create", "name", nm, "ports", pp] := by
  have dne : ("" : String).data = [] := rfl
  have dA : ("/usr/bin/cli" : String).data =
      ['/', 'u', 's', 'r', '/', 'b', 'i', 'n', '/', 'c', 'l', 'i'] := rfl
  have dB : (" --quiet " : String).data =
      [' ', '-', '-', 'q', 'u', 'i', 'e', 't', ' '] := rfl
  have dC : (" --user " : String).data =
      [' ', '-', '-', 'u', 's', 'e', 'r', ' '] := rfl
  have dD : (":" : String).data = [':'] := rfl
  have dE : (" " : String).data = [' '] := rfl
  have dF : ("trunk-create" : String).data =
      ['t', 'r', 'u', 'n', 'k', '-', 'c', 'r', 'e', 'a', 't', 'e'] := rfl
  have dG : (" name " : String).data = [' ', 'n', 'a', 'm', 'e', ' '] := rfl
  have dH : ("ports" : String).data = ['p', 'o', 'r', 't', 's'] := rfl
  have dI : ("/usr/bin/cli --quiet  --user" : String).data =
      ['/', 'u', 's', 'r', '/', 'b', 'i', 'n', '/', 'c', 'l', 'i', ' ',
       '-', '-', 'q', 'u', 'i', 'e', 't', ' ', ' ', '-', '-', 'u', 's', 'e', 'r'] := rfl
  have dJ : (" trunk-create name" : String).data =
      [' ', 't', 'r', 'u', 'n', 'k', '-', 'c', 'r', 'e', 'a', 't', 'e',
       ' ', 'n', 'a', 'm', 'e'] := rfl
  have dK : (" ports" : String).data = [' ', 'p', 'o', 'r', 't', 's'] := rfl
  have hb : buildTrunkCli (trunkCreateMinimal u pw nm pp) =
      Except.ok ("/usr/bin/cli --quiet  --user" ++ " " ++ (u ++ ":" ++ pw) ++ " " ++
        " trunk-create name" ++ " " ++ nm ++ " " ++ " ports" ++ " " ++ pp) := by
    rw [trunk_decomp (trunkCreateMinimal u pw nm pp) rfl]
    rw [Except.ok.injEq]
    apply strData_eq
    simp [trunkCred, trunkOpSeg, trunkCreateMinimal, strSeg, triSeg, switchClauseTrunk,
      if_neg hp0, strData_append, dne, dA, dB, dC, dD, dE, dF, dG, dH, dI, dJ, dK,
      List.append_assoc]
  have hu' : ∀ c ∈ u.data, isShlexWs c = false :=
    fun c hc => (plainTokenChar_spec c (hu c hc)).2
  have hw' : ∀ c ∈ pw.data, isShlexWs c = false :=
    fun c hc => (plainTokenChar_spec c (hw c hc)).2
  have hn' : ∀ c ∈ nm.data, isShlexWs c = false :=
    fun c hc => (plainTokenChar_spec c (hn c hc)).2
  have hp' : ∀ c ∈ pp.data, isShlexWs c = false :=
    fun c hc => (plainTokenChar_spec c (hp c hc)).2
  have pU : ∀ c ∈ u.data, shlexPlain c = true :=
    fun c hc => (plainTokenChar_spec c (hu c hc)).1
  have pW : ∀ c ∈ pw.data, shlexPlain c = true :=
    fun c hc => (plainTokenChar_spec c (hw c hc)).1
  have pN : ∀ c ∈ nm.data, shlexPlain c = true :=
    fun c hc => (plainTokenChar_spec c (hn c hc)).1
  have pP : ∀ c ∈ pp.data, shlexPlain c = true :=
    fun c hc => (plainTokenChar_spec c (hp c hc)).1
  have pA : ∀ c ∈ ("/usr/bin/cli --quiet  --user" : String).data, shlexPlain c = true := by
    decide
  have pSp : ∀ c ∈ (" " : String).data, shlexPlain c = true := by decide
  have pB : ∀ c ∈ (" trunk-create name" : String).data, shlexPlain c = true := by decide
  have pC : ∀ c ∈ (" ports" : String).data, shlexPlain c = true := by decide
  have pColon : ∀ c ∈ (":" : String).data, shlexPlain c = true := by decide
  have pUpw : ∀ c ∈ (u ++ ":" ++ pw).data, shlexPlain c = true :=
    plain_append _ _ (plain_append _ _ pU pColon) pW
  have q1 := plain_append _ _ pA pSp
  have q2 := plain_append _ _ q1 pUpw
  have q3 := plain_append _ _ q2 pSp
  have q4 := plain_append _ _ q3 pB
  have q5 := plain_append _ _ q4 pSp
  have q6 := plain_append _ _ q5 pN
  have q7 := plain_append _ _ q6 pSp
  have q8 := plain_append _ _ q7 pC
  have q9 := plain_append _ _ q8 pSp
  have hplain := plain_append _ _ q9 pP
  have hupw1 : ∀ c ∈ (u ++ ":" ++ pw).data, isShlexWs c = false := by
    intro c hc
    rw [strData_append, strData_append, dD] at hc
    rcases List.mem_append.mp hc with h1 | h2
    · rcases List.mem_append.mp h1 with h3 | h4
      · exact hu' c h3
      · rw [List.mem_singleton] at h4
        subst h4
        decide
    · exact hw' c h2
  have hupw2 : (u ++ ":" ++ pw) ≠ "" := by
    intro he
    have hd := congrArg String.data he
    rw [strData_append, strData_append, dD, dne] at hd
    simp at hd
  have wupw : words (u ++ ":" ++ pw) = [u ++ ":" ++ pw] := words_single _ hupw1 hupw2
  have wnm : words nm = [nm] := words_single nm hn' hn0
  have wpp : words pp = [pp] := words_single pp hp' hp0
  have wA : words "/usr/bin/cli --quiet  --user" = ["/usr/bin/cli", "--quiet", "--user"] := rfl
  have wB : words " trunk-create name" = ["trunk-create", "name"] := rfl
  have wC : words " ports" = ["ports"] := rfl
  rw [hb]
  show Except.bind (Except.ok _) shlexSplit = _
  rw [Except.bind, shlexSplit_plain _ hplain, Except.ok.injEq]
  simp only [words_append_space, wupw, wnm, wpp, wA, wB, wC]
  simp only [List.cons_append, List.nil_append, List.append_assoc]

/-- C5 witness: the end-to-end trunk example of the spec, evaluated
through build and `shlex.split`. -/
theorem c5_minimal_trunk_create_witness :
    Except.bind (buildTrunkCli (trunkCreateMinimal "admin" "admin" "spine-to-leaf"
        "11,12,13,14")) shlexSplit =
      Except.ok ["/usr/bin/cli", "--quiet", "--user", "admin" ++ ":" ++ "admin",
                 "trunk-create", "name", "spine-to-leaf", "ports", "11,12,13,14"] :=
  c5_minimal_trunk_create "admin" "admin" "spine-to-leaf" "11,12,13,14"
    (by decide) (by decide) (by decide) (by decide) (by decide) (by decide)
